import Mathlib

/-!
Verification development for the `prilive-com/telegramsender` Go library.

The Go sources are shallowly embedded here:
  * `Config`, `ValidateConfig`, `validateBotToken` — config.go / validation.go
  * `calculateBackoff` — telegram.go (`calculateBackoff`)
  * the error model `GoError`, `isRetryable`, `extractTelegramError` — telegram.go
  * `executeRequest`, `sendMessageOnce` and the retry loop of `SendMessage` —
    telegram.go

Modelling conventions:
  * Go `time.Duration` (an `int64` count of nanoseconds) is modelled as `ℤ`.
  * Go `float64` arithmetic is idealised by exact rationals (`ℚ`); the Go
    float-to-integer conversion (truncation toward zero) is `ratTrunc`.
  * Go strings are Lean `String`s; `strings.Contains` is `goContains`
    (substring search over the character list).
  * fallible Go calls return `Except GoError _` / `Option _`.
-/

namespace Telegramsender

/-- Go struct `Config` (config.go).  Duration fields count nanoseconds. -/
structure Config where
  BotToken : String
  BaseURL : String
  RequestTimeout : ℤ
  KeepAlive : ℤ
  MaxIdleConns : ℤ
  IdleConnTimeout : ℤ
  RateLimitRequests : ℚ
  RateLimitBurst : ℤ
  BreakerMaxRequests : ℕ
  BreakerInterval : ℤ
  BreakerTimeout : ℤ
  MaxRetries : ℤ
  RetryInitialBackoff : ℤ
  RetryMaxBackoff : ℤ
  RetryBackoffFactor : ℚ
  LogFilePath : String

/-- Go `strings.Split(token, ":")`: split a character list at every colon. -/
def splitOnColon : List Char → List (List Char)
  | [] => [[]]
  | c :: rest =>
    let r := splitOnColon rest
    if c = ':' then [] :: r
    else
      match r with
      | [] => [[c]]
      | h :: t => (c :: h) :: t

/-- Go `strconv.ParseInt(s, 10, 64)` on a character list: optional sign, at
least one digit, all digits, 64-bit signed range. -/
def parseInt64Chars (cs : List Char) : Option ℤ :=
  match cs with
  | [] => none
  | _ =>
    let signDigits : Bool × List Char :=
      match cs with
      | '-' :: rest => (true, rest)
      | '+' :: rest => (false, rest)
      | _ => (false, cs)
    let neg := signDigits.1
    let ds := signDigits.2
    if ds = [] then none
    else if ¬ ds.all (fun c => c.isDigit) then none
    else
      let n : ℕ := ds.foldl (fun a c => a * 10 + (c.toNat - 48)) 0
      let v : ℤ := if neg then -(n : ℤ) else (n : ℤ)
      if v < -(2 ^ 63) ∨ (2 ^ 63 - 1) < v then none else some v

/-- Go `validateBotToken` (validation.go): length at least 10, contains a
colon, exactly two colon-separated parts, the first a 64-bit integer, the
second at least 30 characters.  (Go measures byte lengths; for the ASCII
tokens this library deals with, character length coincides.) -/
def validateBotToken (token : String) : Bool :=
  let cs := token.data
  if cs.length < 10 ∨ ¬ cs.contains ':' then false
  else
    match splitOnColon cs with
    | [p0, p1] => (parseInt64Chars p0).isSome && decide (30 ≤ p1.length)
    | _ => false

/-- Go `ValidateConfig` (validation.go).  Returns `some msg` for the error
`errors.New(msg)`, `none` for a nil error.  Note that the Go function checks
only the fields below; `KeepAlive`, `IdleConnTimeout`, `RateLimitRequests`,
`RateLimitBurst` and the three breaker fields are never inspected. -/
def ValidateConfig (cfg : Config) : Option String :=
  if cfg.BotToken = "" then some "BOT_TOKEN must be set"
  else if validateBotToken cfg.BotToken = false then some "BOT_TOKEN format is invalid"
  else if cfg.LogFilePath = "" then some "LOG_FILE_PATH must be set"
  else if cfg.BaseURL = "" then some "BASE_URL must be set"
  else if cfg.RequestTimeout ≤ 0 then some "REQUEST_TIMEOUT must be positive"
  else if cfg.RetryInitialBackoff ≤ 0 then some "RETRY_INITIAL_BACKOFF must be positive"
  else if cfg.RetryMaxBackoff ≤ 0 then some "RETRY_MAX_BACKOFF must be positive"
  else if cfg.RetryBackoffFactor ≤ 0 then some "RETRY_BACKOFF_FACTOR must be positive"
  else if cfg.MaxRetries < 0 then some "MAX_RETRIES must be non-negative"
  else none

/-- Go conversion of a nonnegative-or-negative float to `int64`
(`time.Duration(x)`): truncation toward zero, idealised on `ℚ`. -/
def ratTrunc (q : ℚ) : ℤ := if 0 ≤ q then ⌊q⌋ else -⌊-q⌋

/-- Go `calculateBackoff` (telegram.go lines 269-277):
`backoff := RetryInitialBackoff * Duration(Pow(RetryBackoffFactor, attempt-1))`,
capped at `RetryMaxBackoff`, then scaled by `0.8 + 0.4*float64(attempt%2)`
and truncated back to a `Duration`. -/
def calculateBackoff (cfg : Config) (attempt : ℕ) : ℤ :=
  let backoff : ℤ := cfg.RetryInitialBackoff * ratTrunc (cfg.RetryBackoffFactor ^ (attempt - 1))
  let backoff2 : ℤ := if backoff > cfg.RetryMaxBackoff then cfg.RetryMaxBackoff else backoff
  ratTrunc ((backoff2 : ℚ) * (4 / 5 + 2 / 5 * ((attempt % 2 : ℕ) : ℚ)))

/-- The capped (pre-jitter) backoff value of `calculateBackoff`. -/
def cappedBackoff (cfg : Config) (attempt : ℕ) : ℤ :=
  let backoff : ℤ := cfg.RetryInitialBackoff * ratTrunc (cfg.RetryBackoffFactor ^ (attempt - 1))
  if backoff > cfg.RetryMaxBackoff then cfg.RetryMaxBackoff else backoff

/-- The jitter scale of `calculateBackoff` as a function of attempt parity:
`0.8` for even attempt numbers, `1.2` for odd ones. -/
def jitterFactor (attempt : ℕ) : ℚ := if attempt % 2 = 0 then 4 / 5 else 6 / 5

/-- The Go error values that can flow through the send pipeline.

  * `ctxCanceled` / `ctxDeadlineExceeded` — `context.Canceled` and
    `context.DeadlineExceeded`.  Note: in the Go standard library
    `context.DeadlineExceeded` is a `deadlineExceededError`, which implements
    the `net.Error` interface with `Timeout() == true`.
  * `netErr msg timeout` — a transport error value implementing `net.Error`
    (for example a `*url.Error` from `http.Client.Do`), with the given
    `Error()` text and `Timeout()` flag.
  * `errOpenState` / `errTooManyRequests` — `gobreaker.ErrOpenState` and
    `gobreaker.ErrTooManyRequests` (plain `errors.New` values).
  * `basic msg` — any other `errors.New` / `fmt.Errorf` (without `%w`) value,
    e.g. the `"telegram API error: %d %s"` error of `sendMessageOnce`.
  * `wrapped pre inner` — `fmt.Errorf(pre ++ ": %w", inner)`. -/
inductive GoError where
  | ctxCanceled
  | ctxDeadlineExceeded
  | netErr (msg : String) (timeout : Bool)
  | errOpenState
  | errTooManyRequests
  | basic (msg : String)
  | wrapped (pre : String) (inner : GoError)
  deriving DecidableEq, BEq, Repr

/-- The `Error()` string of a `GoError` (wrap chains render as
`"pre: inner"`, as `fmt.Errorf("...: %w", err)` does). -/
def errMessage : GoError → String
  | .ctxCanceled => "context canceled"
  | .ctxDeadlineExceeded => "context deadline exceeded"
  | .netErr msg _ => msg
  | .errOpenState => "circuit breaker is open"
  | .errTooManyRequests => "too many requests"
  | .basic msg => msg
  | .wrapped pre inner => pre ++ ": " ++ errMessage inner

/-- Go `errors.Is(e, target)` for the sentinel targets used by the pipeline:
compare with the target, then follow the `%w` unwrap chain. -/
def errorsIs (e target : GoError) : Bool :=
  (e == target) ||
    (match e with
     | .wrapped _ inner => errorsIs inner target
     | _ => false)

/-- Go `errors.As(err, &netErr)` with `netErr net.Error`, returning
`some (netErr.Timeout())` for the first value in the unwrap chain that
implements `net.Error`.  `context.DeadlineExceeded` implements `net.Error`
with `Timeout() == true`; the gobreaker sentinels, `context.Canceled`, and
plain `errors.New`/`fmt.Errorf` values do not implement it. -/
def asNetError : GoError → Option Bool
  | .ctxDeadlineExceeded => some true
  | .netErr _ t => some t
  | .wrapped _ inner => asNetError inner
  | _ => none

/-- Whether a pattern is a leading segment of a character list. -/
def leadsWith : List Char → List Char → Bool
  | [], _ => true
  | _ :: _, [] => false
  | a :: as, b :: bs => (a == b) && leadsWith as bs

/-- Substring search: does `pat` occur contiguously inside the list? -/
def occursIn (pat : List Char) : List Char → Bool
  | [] => leadsWith pat []
  | c :: rest => leadsWith pat (c :: rest) || occursIn pat rest

/-- Go `strings.Contains(s, sub)`. -/
def goContains (s sub : String) : Bool := occursIn sub.data s.data

/-- Go struct `MessageResult`. -/
structure MessageResult where
  MessageID : ℤ
  deriving DecidableEq, Repr

/-- Go struct `TelegramResponse`.  `Result` is the raw `json.RawMessage`
modelled by its later `json.Unmarshal` outcome into a `MessageResult`;
`RetryAfter` counts nanoseconds (it carries `json:"-"`, so parsing a body
always yields `RetryAfter = 0`). -/
structure TelegramResponse where
  OK : Bool
  Result : Except GoError MessageResult
  ErrorCode : ℤ
  Description : String
  RetryAfter : ℤ

/-- The error built by `sendMessageOnce` for a non-OK envelope:
`fmt.Errorf("telegram API error: %d %s", ErrorCode, Description)`.
It is a plain formatted error — the `TelegramResponse` value itself (with
its `RetryAfter` field) is not part of the error. -/
def telegramAPIError (code : ℤ) (desc : String) : GoError :=
  .basic ("telegram API error: " ++ toString code ++ " " ++ desc)

/-- Go `extractTelegramError` (telegram.go lines 300-330): best-effort
substring matching over `err.Error()`. -/
def extractTelegramError (err : GoError) : Option TelegramResponse :=
  let errMsg := errMessage err
  if goContains errMsg "telegram API error" then
    if goContains errMsg "403" then
      some { OK := false, Result := .error (.basic "no result"), ErrorCode := 403,
             Description := "Forbidden", RetryAfter := 0 }
    else if goContains errMsg "429" then
      some { OK := false, Result := .error (.basic "no result"), ErrorCode := 429,
             Description := "Too Many Requests", RetryAfter := 0 }
    else if goContains errMsg "500" || goContains errMsg "502" ||
            goContains errMsg "503" || goContains errMsg "504" then
      some { OK := false, Result := .error (.basic "no result"), ErrorCode := 500,
             Description := "Server Error", RetryAfter := 0 }
    else none
  else none

/-- Go `isRetryable` (telegram.go lines 279-298): net timeouts first, then
the context sentinels, then the substring-extracted Telegram error codes. -/
def isRetryable (err : GoError) : Bool :=
  if asNetError err = some true then true
  else if errorsIs err .ctxDeadlineExceeded || errorsIs err .ctxCanceled then false
  else
    match extractTelegramError err with
    | some telegramErr =>
      decide (telegramErr.ErrorCode = 429) ||
        (decide (500 ≤ telegramErr.ErrorCode) && decide (telegramErr.ErrorCode ≤ 504))
    | none => false

/-- One HTTP round trip as seen by `executeRequest`: the places where the
environment (the network and the remote API) can intervene.

  * `marshalErr` — `json.Marshal(payload)` fails.
  * `reqErr cause` — `http.NewRequestWithContext` fails: `url.Parse`
    rejects the request URL with reason `cause`.  The error it returns is
    `&url.Error{Op: "parse", URL: rawurl, Err: cause}`, whose `Error()`
    text embeds the raw, token-bearing URL; since the URL is a function of
    the configuration, `executeRequest` (not the environment) builds that
    message.
  * `transportErr cause timeout` — `httpClient.Do` fails (connection,
    timeout, TLS, DNS) with underlying reason `cause`.  `Do` returns a
    `*url.Error{Op: "Post", URL: stripPassword(url), Err: cause}`;
    `stripPassword` redacts only a userinfo password, not path segments,
    so its `Error()` text embeds the full token-bearing request URL.
    `*url.Error` implements `net.Error` and delegates `Timeout()` to the
    cause — modelled by the `timeout` flag.
  * `readErr` — `io.ReadAll(resp.Body)` fails.
  * `response status retryAfterHeader parsed` — a transport-level response
    with the given status code, `Retry-After` header value (`""` when
    absent), and the `json.Unmarshal` outcome for its body. -/
inductive RoundTrip where
  | marshalErr (e : GoError)
  | reqErr (cause : String)
  | transportErr (cause : String) (timeout : Bool)
  | readErr (e : GoError)
  | response (statusCode : ℤ) (retryAfterHeader : String) (parsed : Except GoError TelegramResponse)

/-- The redacted URL `"%s/bot[REDACTED]/%s"` used for every diagnostic trace
(telegram.go line 215). -/
def redactedURL (cfg : Config) (method : String) : String :=
  cfg.BaseURL ++ "/bot[REDACTED]/" ++ method

/-- The real request URL `"%s/bot%s/%s"` (telegram.go line 212); it embeds
the bot token.  It addresses the wire request, and — via the `url.Error`
values of `http.NewRequestWithContext` and `httpClient.Do` — it also
appears verbatim inside transport-level error messages. -/
def requestURL (cfg : Config) (method : String) : String :=
  cfg.BaseURL ++ "/bot" ++ cfg.BotToken ++ "/" ++ method

/-- Go `executeRequest` (telegram.go lines 205-267), as a function of the
round-trip outcome.  A body that parses to a non-OK envelope is returned
with a nil error; if its error code is 429 and a `Retry-After` header is
present and parses, the header value (seconds) is attached as `RetryAfter`
nanoseconds.  Request-creation and transport failures wrap `url.Error`
values whose messages (`%s %q: %s` with the URL quoted) embed the raw
token-bearing `requestURL`; only the wrapper text of line 219 uses the
redacted URL. -/
def executeRequest (cfg : Config) (method : String) (rt : RoundTrip) : Except GoError TelegramResponse :=
  match rt with
  | .marshalErr e => .error (.wrapped "failed to marshal request" e)
  | .reqErr cause =>
    .error (.wrapped ("failed to create request to " ++ redactedURL cfg method)
      (.netErr ("parse \"" ++ requestURL cfg method ++ "\": " ++ cause) false))
  | .transportErr cause timeout =>
    .error (.wrapped "request failed"
      (.netErr ("Post \"" ++ requestURL cfg method ++ "\": " ++ cause) timeout))
  | .readErr e => .error (.wrapped "failed to read response" e)
  | .response _ _ (.error je) => .error (.wrapped "failed to parse response" je)
  | .response _ retryAfterHeader (.ok telegramResp) =>
    if telegramResp.OK = false then
      if telegramResp.ErrorCode = 429 ∧ retryAfterHeader ≠ "" then
        match parseInt64Chars retryAfterHeader.data with
        | some seconds => .ok { telegramResp with RetryAfter := seconds * 1000000000 }
        | none => .ok telegramResp
      else .ok telegramResp
    else .ok telegramResp

/-- What the `Execute` method of the circuit breaker records for one wrapped
`executeRequest` call: the gobreaker default `IsSuccessful` counts a failure
exactly when the returned error is non-nil. -/
def breakerObservesFailure (cfg : Config) (method : String) (rt : RoundTrip) : Bool :=
  match executeRequest cfg method rt with
  | .error _ => true
  | .ok _ => false

/-- The string components of the `logger.Error("telegram API error", ...)`
event emitted by `executeRequest` for a non-OK envelope (telegram.go lines
248-254): message, then the key/value fields rendered as strings.  The
`url` field carries `redactedURL`, never the token-bearing URL. -/
def executeRequestLogs (cfg : Config) (method : String) (rt : RoundTrip) : List String :=
  match rt with
  | .response statusCode retryAfterHeader (.ok telegramResp) =>
    if telegramResp.OK = false then
      ["telegram API error", "method", method, "url", redactedURL cfg method,
       "status_code", toString statusCode, "error_code", toString telegramResp.ErrorCode,
       "description", telegramResp.Description, "retry_after", retryAfterHeader]
    else []
  | _ => []

/-- What the environment does to one attempt of `sendMessageOnce`:

  * `limiterCancel e` — `limiter.Wait(ctx)` returns the context error `e`
    (cancellation or deadline while waiting for a token).
  * `breakerReject e` — the circuit breaker rejects the attempt without a
    network call (`e` is `errOpenState` or `errTooManyRequests`).
  * `call rt` — the breaker executes the request and the round trip is `rt`. -/
inductive AttemptEnv where
  | limiterCancel (e : GoError)
  | breakerReject (e : GoError)
  | call (rt : RoundTrip)

/-- Go `sendMessageOnce` (telegram.go lines 177-203).  Note line 194: a
non-OK envelope is converted to the plain formatted error
`telegramAPIError`; the envelope (and its `RetryAfter`) is dropped. -/
def sendMessageOnce (cfg : Config) (ae : AttemptEnv) : Except GoError MessageResult :=
  match ae with
  | .limiterCancel e => .error (.wrapped "rate limit exceeded" e)
  | .breakerReject e => .error e
  | .call rt =>
    match executeRequest cfg "sendMessage" rt with
    | .error e => .error e
    | .ok telegramResp =>
      if telegramResp.OK = false then
        .error (telegramAPIError telegramResp.ErrorCode telegramResp.Description)
      else
        match telegramResp.Result with
        | .error je => .error (.wrapped "failed to parse result" je)
        | .ok msgResult => .ok msgResult

/-- The environment of one `SendMessage` call: what each attempt meets, and
whether the caller context fires during the backoff wait after attempt
`n` (with the corresponding `ctx.Err()` value). -/
structure Env where
  attempts : ℕ → AttemptEnv
  waitCancel : ℕ → Option GoError

/-- Terminal outcome of `SendMessage`: a result, an error, or a runtime
panic. -/
inductive SendOutcome where
  | ok (r : MessageResult)
  | err (e : GoError)
  | panicked (msg : String)
  deriving DecidableEq, Repr

/-- Observable trace of one `SendMessage` call: outcome, the completed
backoff waits (nanoseconds), the string components of emitted log events,
and how many attempts (`sendMessageOnce` calls) were made. -/
structure LoopTrace where
  outcome : SendOutcome
  waits : List ℤ
  logs : List String
  attemptsUsed : ℕ
  deriving DecidableEq, Repr

/-- Log strings produced inside one attempt (only `executeRequest` logs). -/
def attemptLogs (cfg : Config) (ae : AttemptEnv) : List String :=
  match ae with
  | .call rt => executeRequestLogs cfg "sendMessage" rt
  | _ => []

/-- The `logger.Error("non-retryable error", ...)` event (telegram.go
lines 132-134). -/
def nonRetryableLog (e : GoError) (attempt : ℕ) : List String :=
  ["non-retryable error", "error", errMessage e, "attempt", toString attempt]

/-- The `logger.Info("retrying request", ...)` event (telegram.go lines
157-160); the backoff is rendered from its nanosecond count. -/
def retryingLog (nextAttempt : ℕ) (backoff : ℤ) (usingServer : Bool) : List String :=
  ["retrying request", "attempt", toString nextAttempt, "backoff", toString backoff,
   "using_server_delay", toString usingServer]

/-- The panic message of the Go `errors.As` function when the target does not satisfy
its contract.  `SendMessage` line 140 calls
`errors.As(err, &telegramErr)` with `telegramErr *TelegramResponse`;
`*TelegramResponse` has no `Error()` method anywhere in the repository, so
it does not implement `error`, and the standard library panics:
`panic("errors: *target must be interface or implement error")`. -/
def asPanicMessage : String := "errors: *target must be interface or implement error"

/-- Under the charitable (non-panicking) reading of line 140, `errors.As`
searches the unwrap chain for a `*TelegramResponse`; since
`TelegramResponse` implements no `Error()` method, no error value in this
program is (or wraps) one, so the search always fails. -/
def chainTelegramResponse : GoError → Option TelegramResponse
  | .wrapped _ inner => chainTelegramResponse inner
  | _ => none

/-- The cfg-dependent operations used by the retry loop of `SendMessage`. -/
structure PipelineOps where
  once : AttemptEnv → Except GoError MessageResult
  logsOf : AttemptEnv → List String
  backoffOf : ℕ → ℤ

/-- The operations of the real pipeline for a given configuration. -/
def pipelineOps (cfg : Config) : PipelineOps :=
  { once := sendMessageOnce cfg
    logsOf := attemptLogs cfg
    backoffOf := calculateBackoff cfg }

/-- The retry loop of `SendMessage` (telegram.go lines 118-172), with
`fuel = MaxRetries - attempt` remaining retries.  With `strict = true`
(faithful Go semantics) a retryable non-final failure panics at the
`errors.As` call on line 140 before any wait; with `strict = false` the
charitable non-panicking reading continues: the server retry hint is looked
up in the unwrap chain (always absent), the backoff is chosen, and the
`select` either returns the context error or completes the wait. -/
def sendLoopCore (strict : Bool) (ops : PipelineOps) (env : Env) : ℕ → ℕ → LoopTrace
  | fuel, attempt =>
    let ae := env.attempts attempt
    let logs0 := ops.logsOf ae
    match ops.once ae with
    | .ok r => { outcome := .ok r, waits := [], logs := logs0, attemptsUsed := 1 }
    | .error e =>
      match fuel with
      | 0 =>
        { outcome := .err (.wrapped "max retries exceeded" e), waits := [], logs := logs0,
          attemptsUsed := 1 }
      | fuel' + 1 =>
        if isRetryable e = false then
          { outcome := .err e, waits := [], logs := logs0 ++ nonRetryableLog e attempt,
            attemptsUsed := 1 }
        else if strict then
          { outcome := .panicked asPanicMessage, waits := [], logs := logs0, attemptsUsed := 1 }
        else
          let serverRetryDelay : ℤ :=
            match chainTelegramResponse e with
            | some telegramErr => if 0 < telegramErr.RetryAfter then telegramErr.RetryAfter else 0
            | none => 0
          let backoff : ℤ :=
            if 0 < serverRetryDelay then serverRetryDelay else ops.backoffOf (attempt + 1)
          match env.waitCancel attempt with
          | some ce =>
            { outcome := .err ce, waits := [],
              logs := logs0 ++ retryingLog (attempt + 1) backoff (decide (0 < serverRetryDelay)),
              attemptsUsed := 1 }
          | none =>
            let rest := sendLoopCore strict ops env fuel' (attempt + 1)
            { outcome := rest.outcome, waits := backoff :: rest.waits,
              logs := logs0 ++ retryingLog (attempt + 1) backoff (decide (0 < serverRetryDelay))
                        ++ rest.logs,
              attemptsUsed := rest.attemptsUsed + 1 }

/-- Go `SendMessage` (telegram.go lines 108-173) under faithful `errors.As`
semantics: validate the configuration, then run the retry loop with
`MaxRetries` remaining retries. -/
def SendMessage (cfg : Config) (env : Env) : LoopTrace :=
  match ValidateConfig cfg with
  | some msg =>
    { outcome := .err (.wrapped "config validation failed" (.basic msg)), waits := [],
      logs := [], attemptsUsed := 0 }
  | none => sendLoopCore true (pipelineOps cfg) env cfg.MaxRetries.toNat 0

/-- Definition of `SendMessage` under the charitable non-panicking reading of the
`errors.As` call on line 140 (see `sendLoopCore`). -/
def SendMessageLenient (cfg : Config) (env : Env) : LoopTrace :=
  match ValidateConfig cfg with
  | some msg =>
    { outcome := .err (.wrapped "config validation failed" (.basic msg)), waits := [],
      logs := [], attemptsUsed := 0 }
  | none => sendLoopCore false (pipelineOps cfg) env cfg.MaxRetries.toNat 0

/-- A well-formed bot token (9-digit id, 30-character secret). -/
def tok1 : String := "123456789:ABCDEFGHIJKLMNOPQRSTUVWXYZabcd"

/-- The configuration built from the documented environment-variable
defaults of config.go (durations in nanoseconds). -/
def cfg0 : Config :=
  { BotToken := tok1
    BaseURL := "https://api.telegram.org"
    RequestTimeout := 10000000000
    KeepAlive := 30000000000
    MaxIdleConns := 10
    IdleConnTimeout := 90000000000
    RateLimitRequests := 10
    RateLimitBurst := 20
    BreakerMaxRequests := 5
    BreakerInterval := 120000000000
    BreakerTimeout := 60000000000
    MaxRetries := 3
    RetryInitialBackoff := 100000000
    RetryMaxBackoff := 10000000000
    RetryBackoffFactor := 2
    LogFilePath := "logs/telegramsender.log" }

/-- A positive configuration whose first backoff already sits at the
ceiling (initial backoff = ceiling = 10ns, factor 2). -/
def cfgCE5 : Config := { cfg0 with RetryInitialBackoff := 10, RetryMaxBackoff := 10 }

/-- A configuration with non-positive keep-alive, rate limit and breaker
interval (all fields `ValidateConfig` never reads). -/
def cfgBad : Config := { cfg0 with KeepAlive := -5, RateLimitRequests := 0, BreakerInterval := 0 }

/-- A parsed 429 envelope (rate-limited; its raw result is absent, so a
later unmarshal of it would fail). -/
def tr429 : TelegramResponse :=
  { OK := false, Result := .error (.basic "unexpected end of JSON input"), ErrorCode := 429,
    Description := "Too Many Requests", RetryAfter := 0 }

/-- A parsed 503 envelope. -/
def tr503 : TelegramResponse :=
  { OK := false, Result := .error (.basic "unexpected end of JSON input"), ErrorCode := 503,
    Description := "Service Unavailable", RetryAfter := 0 }

/-- A parsed success envelope carrying message id 7. -/
def trOK : TelegramResponse :=
  { OK := true, Result := .ok { MessageID := 7 }, ErrorCode := 0, Description := "",
    RetryAfter := 0 }

/-- Environment for the Retry-After scenario: attempt 0 receives a 429
envelope with header `Retry-After: 5`; any later attempt succeeds; the
caller never cancels. -/
def envC1 : Env :=
  { attempts := fun n =>
      if n = 0 then .call (.response 429 "5" (.ok tr429))
      else .call (.response 200 "" (.ok trOK))
    waitCancel := fun _ => none }

/-- Environment where every attempt gets a 503 envelope and the caller
context fires during every backoff wait. -/
def envC9 : Env :=
  { attempts := fun _ => .call (.response 503 "" (.ok tr503))
    waitCancel := fun _ => some .ctxCanceled }

/-- Environment where the circuit breaker is open: every attempt is
rejected without a network call. -/
def envC6 : Env :=
  { attempts := fun _ => .breakerReject .errOpenState
    waitCancel := fun _ => none }

/-- Environment where every attempt fails at the transport layer: a
non-timeout `connection refused` from `httpClient.Do`. -/
def envLeak : Env :=
  { attempts := fun _ => .call (.transportErr "dial tcp: connection refused" false)
    waitCancel := fun _ => none }

/-! Helper lemmas. -/

theorem ratTrunc_of_nonneg {q : ℚ} (h : 0 ≤ q) : ratTrunc q = ⌊q⌋ := if_pos h

theorem ratTrunc_intCast (n : ℤ) : ratTrunc ((n : ℤ) : ℚ) = n := by
  unfold ratTrunc
  split_ifs with h
  · exact Int.floor_intCast n
  · rw [← Int.cast_neg, Int.floor_intCast, neg_neg]

theorem leadsWith_append (p r : List Char) : leadsWith p (p ++ r) = true := by
  induction p with
  | nil => rfl
  | cons c cs ih => simp [leadsWith, ih]

theorem occursIn_mid (pre pat post : List Char) : occursIn pat (pre ++ (pat ++ post)) = true := by
  induction pre with
  | nil =>
    rw [List.nil_append]
    cases pat with
    | nil => cases post <;> rfl
    | cons c cs =>
      show (leadsWith (c :: cs) (c :: (cs ++ post)) || occursIn (c :: cs) (cs ++ post)) = true
      rw [show (c :: (cs ++ post)) = (c :: cs) ++ post from rfl, leadsWith_append, Bool.true_or]
  | cons c cs ih =>
    show (leadsWith pat (c :: (cs ++ (pat ++ post))) || occursIn pat (cs ++ (pat ++ post))) = true
    rw [ih, Bool.or_true]

theorem goContains_api_marker (s : String) :
    goContains ("telegram API error: " ++ s) "telegram API error" = true := by
  show occursIn ("telegram API error".data) (("telegram API error: " ++ s).data) = true
  have hd : ("telegram API error: " ++ s).data =
      "telegram API error".data ++ (": ".data ++ s.data) := by
    show "telegram API error: ".data ++ s.data = "telegram API error".data ++ (": ".data ++ s.data)
    rw [show ("telegram API error: ").data = "telegram API error".data ++ ": ".data from by decide,
      List.append_assoc]
  rw [hd]
  exact occursIn_mid [] _ _

theorem isRetryable_basic (m : String) :
    isRetryable (.basic m) =
      (goContains m "telegram API error" && (!goContains m "403") &&
        (goContains m "429" ||
          (goContains m "500" || goContains m "502" || goContains m "503" || goContains m "504"))) := by
  have h1 : asNetError (.basic m) = none := rfl
  have h2 : errorsIs (.basic m) .ctxDeadlineExceeded = false := rfl
  have h3 : errorsIs (.basic m) .ctxCanceled = false := rfl
  simp only [isRetryable, h1, h2, h3, extractTelegramError, errMessage]
  rcases Bool.eq_false_or_eq_true (goContains m "telegram API error") with hA | hA <;>
    rcases Bool.eq_false_or_eq_true (goContains m "403") with hB | hB <;>
      rcases Bool.eq_false_or_eq_true (goContains m "429") with hC | hC <;>
        rcases Bool.eq_false_or_eq_true (goContains m "500") with hD | hD <;>
          rcases Bool.eq_false_or_eq_true (goContains m "502") with hE | hE <;>
            rcases Bool.eq_false_or_eq_true (goContains m "503") with hF | hF <;>
              rcases Bool.eq_false_or_eq_true (goContains m "504") with hG | hG <;>
                simp [hA, hB, hC, hD, hE, hF, hG]

/-! Claim theorems. -/

/-- C10: `calculateBackoff` is deterministic — it is a pure function of the
configuration and the attempt number, with no source of randomness, so two
calls with the same attempt number return equal durations (and concurrent
callers on the same attempt number compute identical waits).  Its "jitter"
scale is exactly `jitterFactor`: a function of attempt parity alone, `0.8`
for even attempt numbers and `1.2` for odd ones, applied to the capped
exponential base. -/
theorem calculateBackoff_deterministic_parity_jitter (cfg : Config) (attempt : ℕ) :
    calculateBackoff cfg attempt = ratTrunc ((cappedBackoff cfg attempt : ℚ) * jitterFactor attempt) := by
  unfold calculateBackoff cappedBackoff jitterFactor
  rcases Nat.mod_two_eq_zero_or_one attempt with h | h <;> rw [h] <;> norm_num

/-- C3: evaluation of `isRetryable` on the context sentinels.  The claim
(and the spec, and the `errors.Is` check the code itself makes on line 285) says both
context errors are non-retryable; in fact `context.DeadlineExceeded`
implements `net.Error` with `Timeout() == true`, so the leading
`errors.As`/`Timeout()` check classifies it (bare or wrapped) as RETRYABLE.
Only `context.Canceled` is classified as non-retryable. -/
theorem isRetryable_context_errors :
    isRetryable GoError.ctxDeadlineExceeded = true ∧
    isRetryable (GoError.wrapped "rate limit exceeded" GoError.ctxDeadlineExceeded) = true ∧
    isRetryable GoError.ctxCanceled = false ∧
    isRetryable (GoError.wrapped "rate limit exceeded" GoError.ctxCanceled) = false := by
  refine ⟨by decide, by decide, by decide, by decide⟩

/-- C6 counterexample: the claim says `isRetryable` returns `true` for the
circuit-open failure; in fact the gobreaker value `ErrOpenState` ("circuit breaker
is open") matches no retryable category, so `isRetryable` returns `false`. -/
theorem circuitOpen_not_retryable : isRetryable GoError.errOpenState = false := by decide

/-- C7 counterexample: an application-level API failure with error code 400
(not in `{429,500,502,503,504}`) whose description happens to contain the
substring "429" is classified as retryable, because `extractTelegramError`
matches substrings of the formatted message, not the structured code. -/
theorem isRetryable_code400_desc429_retryable :
    isRetryable (telegramAPIError 400 "Bad Request 429") = true := by decide

/-- C7 (amended): `isRetryable` classifies an application-level API failure
`telegram API error: {code} {description}` purely by substring inspection
of the formatted message: retryable iff the message does not contain "403"
and contains one of "429", "500", "502", "503", "504".  (On messages whose
only sentinel substring occurrences come from a standard three-digit code,
this coincides with the claimed code set `{429,500,502,503,504}`; unknown
errors without the "telegram API error" marker are handled by
`isRetryable_basic` and return `false`.) -/
theorem isRetryable_api_substring_characterization (code : ℤ) (desc : String) :
    isRetryable (telegramAPIError code desc) =
      ((!goContains ("telegram API error: " ++ toString code ++ " " ++ desc) "403") &&
        (goContains ("telegram API error: " ++ toString code ++ " " ++ desc) "429" ||
          (goContains ("telegram API error: " ++ toString code ++ " " ++ desc) "500" ||
            goContains ("telegram API error: " ++ toString code ++ " " ++ desc) "502" ||
            goContains ("telegram API error: " ++ toString code ++ " " ++ desc) "503" ||
            goContains ("telegram API error: " ++ toString code ++ " " ++ desc) "504"))) := by
  have hmark : goContains ("telegram API error: " ++ toString code ++ " " ++ desc)
      "telegram API error" = true := by
    have hd : ("telegram API error: " ++ toString code ++ " " ++ desc) =
        "telegram API error: " ++ (toString code ++ (" " ++ desc)) := by
      show String.mk _ = String.mk _
      rw [List.append_assoc, List.append_assoc]
    rw [hd]
    exact goContains_api_marker _
  rw [show telegramAPIError code desc =
        .basic ("telegram API error: " ++ toString code ++ " " ++ desc) from rfl,
    isRetryable_basic, hmark, Bool.true_and]

/-- C8 counterexample: a configuration with non-positive keep-alive, rate
limit rate and breaker interval still passes `ValidateConfig` (it returns a
nil error), because the function never reads those fields. -/
theorem ValidateConfig_accepts_nonpositive_limits :
    ValidateConfig cfgBad = none ∧
    cfgBad.KeepAlive ≤ 0 ∧ cfgBad.RateLimitRequests ≤ 0 ∧ cfgBad.BreakerInterval ≤ 0 := by
  refine ⟨by decide, by decide, by decide, by decide⟩

/-- C8 (amended): `ValidateConfig` returns a nil error exactly when the bot
token is present and well-formed, the log path and base URL are present,
the request timeout and the three retry-backoff parameters are positive,
and the retry count is non-negative.  It does not inspect keep-alive,
idle-connection timeout, rate-limit rate/burst, or the breaker fields. -/
theorem ValidateConfig_none_iff (cfg : Config) :
    ValidateConfig cfg = none ↔
      (cfg.BotToken ≠ "" ∧ validateBotToken cfg.BotToken = true ∧
        cfg.LogFilePath ≠ "" ∧ cfg.BaseURL ≠ "" ∧
        0 < cfg.RequestTimeout ∧ 0 < cfg.RetryInitialBackoff ∧
        0 < cfg.RetryMaxBackoff ∧ 0 < cfg.RetryBackoffFactor ∧ 0 ≤ cfg.MaxRetries) := by
  unfold ValidateConfig
  split_ifs with h1 h2 h3 h4 h5 h6 h7 h8 h9 <;>
    constructor <;> intro hyp <;> simp_all [not_le, not_lt] <;>
      obtain ⟨p1, p2, p3, p4, p5, p6, p7, p8, p9⟩ := hyp <;>
        first
          | omega
          | linarith

/-- C2: a round trip whose body parses to an envelope with `OK = false` is
returned by `executeRequest` with a nil error (the envelope itself, with
the Retry-After header attached for a 429), so the circuit breaker records
it as a success; the breaker records a failure exactly for marshal,
request-creation, transport, body-read and JSON-parse errors. -/
theorem executeRequest_non_ok_is_breaker_success :
    (∀ (cfg : Config) (s : ℤ) (hdr : String) (tr : TelegramResponse), tr.OK = false →
      (∃ d : ℤ, executeRequest cfg "sendMessage" (.response s hdr (.ok tr)) =
          .ok { tr with RetryAfter := d }) ∧
      breakerObservesFailure cfg "sendMessage" (.response s hdr (.ok tr)) = false) ∧
    (∀ (cfg : Config) (e : GoError), breakerObservesFailure cfg "sendMessage" (.marshalErr e) = true) ∧
    (∀ (cfg : Config) (cause : String), breakerObservesFailure cfg "sendMessage" (.reqErr cause) = true) ∧
    (∀ (cfg : Config) (cause : String) (timeout : Bool),
      breakerObservesFailure cfg "sendMessage" (.transportErr cause timeout) = true) ∧
    (∀ (cfg : Config) (e : GoError), breakerObservesFailure cfg "sendMessage" (.readErr e) = true) ∧
    (∀ (cfg : Config) (s : ℤ) (hdr : String) (je : GoError),
      breakerObservesFailure cfg "sendMessage" (.response s hdr (.error je)) = true) := by
  refine ⟨?_, fun _ _ => rfl, fun _ _ => rfl, fun _ _ _ => rfl, fun _ _ => rfl, fun _ _ _ _ => rfl⟩
  intro cfg s hdr tr h
  obtain ⟨trO, trR, trC, trD, trA⟩ := tr
  subst h
  have hex : ∃ d : ℤ, executeRequest cfg "sendMessage"
      (.response s hdr (.ok ⟨false, trR, trC, trD, trA⟩)) =
      .ok { OK := false, Result := trR, ErrorCode := trC, Description := trD, RetryAfter := d } := by
    by_cases h429 : trC = 429 ∧ hdr ≠ ""
    · cases hp : parseInt64Chars hdr.data with
      | some seconds => exact ⟨seconds * 1000000000, by simp [executeRequest, h429, hp]⟩
      | none => exact ⟨trA, by simp [executeRequest, h429, hp]⟩
    · exact ⟨trA, by simp [executeRequest, h429]⟩
  refine ⟨hex, ?_⟩
  obtain ⟨d, hd⟩ := hex
  simp [breakerObservesFailure, hd]

/-- C2 witness: a concrete 400 envelope round trip. -/
theorem executeRequest_non_ok_is_breaker_success_witness :
    (∃ d : ℤ, executeRequest cfg0 "sendMessage"
        (.response 400 ""
          (.ok { OK := false, Result := .error (.basic "unexpected end of JSON input"),
                 ErrorCode := 400, Description := "Bad Request", RetryAfter := 0 })) =
      .ok { OK := false, Result := .error (.basic "unexpected end of JSON input"),
            ErrorCode := 400, Description := "Bad Request", RetryAfter := d }) ∧
    breakerObservesFailure cfg0 "sendMessage"
      (.response 400 ""
        (.ok { OK := false, Result := .error (.basic "unexpected end of JSON input"),
               ErrorCode := 400, Description := "Bad Request", RetryAfter := 0 })) = false :=
  executeRequest_non_ok_is_breaker_success.1 cfg0 400 ""
    { OK := false, Result := .error (.basic "unexpected end of JSON input"),
      ErrorCode := 400, Description := "Bad Request", RetryAfter := 0 } rfl

/-- C5 (amended): for every attempt number `n ≥ 1` and positive
configuration, `calculateBackoff cfg n` is at most `1.2 ×` the ceiling (not
`1.0 ×` — odd attempts scale the capped base by `1.2`), and exceeds
`0.8 × cappedBackoff cfg n − 1` nanosecond (the `− 1` accounts for the
final truncation to whole nanoseconds; `cappedBackoff` is the
integer-truncated exponential `initial × ⌊factor^(n−1)⌋` capped at the
ceiling, which can be far below the uncapped exponential of the original
claim). -/
theorem calculateBackoff_bounds (cfg : Config) (n : ℕ)
    (hInit : 0 < cfg.RetryInitialBackoff) (hFac : 0 < cfg.RetryBackoffFactor)
    (hMax : 0 < cfg.RetryMaxBackoff) (hn : 1 ≤ n) :
    ((calculateBackoff cfg n : ℤ) : ℚ) ≤ 6 / 5 * (cfg.RetryMaxBackoff : ℚ) ∧
    4 / 5 * ((cappedBackoff cfg n : ℤ) : ℚ) - 1 < ((calculateBackoff cfg n : ℤ) : ℚ) ∧
    cappedBackoff cfg n ≤ cfg.RetryMaxBackoff ∧ 0 ≤ cappedBackoff cfg n := by
  have hpow : (0 : ℚ) < cfg.RetryBackoffFactor ^ (n - 1) := pow_pos hFac _
  have htr0 : 0 ≤ ratTrunc (cfg.RetryBackoffFactor ^ (n - 1)) := by
    rw [ratTrunc_of_nonneg hpow.le]
    exact Int.floor_nonneg.mpr hpow.le
  have hbase : 0 ≤ cfg.RetryInitialBackoff * ratTrunc (cfg.RetryBackoffFactor ^ (n - 1)) :=
    mul_nonneg hInit.le htr0
  have hcb : cappedBackoff cfg n =
      (if cfg.RetryInitialBackoff * ratTrunc (cfg.RetryBackoffFactor ^ (n - 1)) >
          cfg.RetryMaxBackoff then cfg.RetryMaxBackoff
       else cfg.RetryInitialBackoff * ratTrunc (cfg.RetryBackoffFactor ^ (n - 1))) := rfl
  have hcb_le : cappedBackoff cfg n ≤ cfg.RetryMaxBackoff := by
    rw [hcb]
    split_ifs with hgt
    · exact le_refl _
    · exact le_of_not_lt hgt
  have hcb_nonneg : 0 ≤ cappedBackoff cfg n := by
    rw [hcb]
    split_ifs with hgt
    · exact hMax.le
    · exact hbase
  have hjf : 4 / 5 ≤ (4 / 5 + 2 / 5 * ((n % 2 : ℕ) : ℚ)) ∧
      (4 / 5 + 2 / 5 * ((n % 2 : ℕ) : ℚ)) ≤ 6 / 5 := by
    rcases Nat.mod_two_eq_zero_or_one n with h | h <;> rw [h] <;> norm_num
  have hcalc : calculateBackoff cfg n =
      ratTrunc ((cappedBackoff cfg n : ℚ) * (4 / 5 + 2 / 5 * ((n % 2 : ℕ) : ℚ))) := rfl
  have hcbq : (0 : ℚ) ≤ ((cappedBackoff cfg n : ℤ) : ℚ) := by exact_mod_cast hcb_nonneg
  have hjf0 : (0 : ℚ) ≤ 4 / 5 + 2 / 5 * ((n % 2 : ℕ) : ℚ) := le_trans (by norm_num) hjf.1
  have hx0 : 0 ≤ ((cappedBackoff cfg n : ℤ) : ℚ) * (4 / 5 + 2 / 5 * ((n % 2 : ℕ) : ℚ)) :=
    mul_nonneg hcbq hjf0
  have hfloor : calculateBackoff cfg n =
      ⌊((cappedBackoff cfg n : ℤ) : ℚ) * (4 / 5 + 2 / 5 * ((n % 2 : ℕ) : ℚ))⌋ := by
    rw [hcalc, ratTrunc_of_nonneg hx0]
  refine ⟨?_, ?_, hcb_le, hcb_nonneg⟩
  · rw [hfloor]
    have h1 : (((⌊((cappedBackoff cfg n : ℤ) : ℚ) * (4 / 5 + 2 / 5 * ((n % 2 : ℕ) : ℚ))⌋ : ℤ)) : ℚ) ≤
        ((cappedBackoff cfg n : ℤ) : ℚ) * (4 / 5 + 2 / 5 * ((n % 2 : ℕ) : ℚ)) := Int.floor_le _
    have h2 : ((cappedBackoff cfg n : ℤ) : ℚ) * (4 / 5 + 2 / 5 * ((n % 2 : ℕ) : ℚ)) ≤
        ((cfg.RetryMaxBackoff : ℤ) : ℚ) * (6 / 5) :=
      mul_le_mul (by exact_mod_cast hcb_le) hjf.2 hjf0 (by exact_mod_cast hMax.le)
    linarith
  · rw [hfloor]
    have h1 : ((cappedBackoff cfg n : ℤ) : ℚ) * (4 / 5 + 2 / 5 * ((n % 2 : ℕ) : ℚ)) - 1 <
        (((⌊((cappedBackoff cfg n : ℤ) : ℚ) * (4 / 5 + 2 / 5 * ((n % 2 : ℕ) : ℚ))⌋ : ℤ)) : ℚ) :=
      Int.sub_one_lt_floor _
    have h2 : ((cappedBackoff cfg n : ℤ) : ℚ) * (4 / 5) ≤
        ((cappedBackoff cfg n : ℤ) : ℚ) * (4 / 5 + 2 / 5 * ((n % 2 : ℕ) : ℚ)) :=
      mul_le_mul_of_nonneg_left hjf.1 hcbq
    linarith

/-- C5 witness: the bounds instantiated at the default configuration and
attempt 1. -/
theorem calculateBackoff_bounds_witness :
    0 < cfg0.RetryInitialBackoff ∧ 0 < cfg0.RetryBackoffFactor ∧ 0 < cfg0.RetryMaxBackoff ∧
    1 ≤ 1 ∧
    (((calculateBackoff cfg0 1 : ℤ) : ℚ) ≤ 6 / 5 * (cfg0.RetryMaxBackoff : ℚ) ∧
      4 / 5 * ((cappedBackoff cfg0 1 : ℤ) : ℚ) - 1 < ((calculateBackoff cfg0 1 : ℤ) : ℚ) ∧
      cappedBackoff cfg0 1 ≤ cfg0.RetryMaxBackoff ∧ 0 ≤ cappedBackoff cfg0 1) :=
  ⟨by decide, by decide, by decide, by decide,
    calculateBackoff_bounds cfg0 1 (by decide) (by decide) (by decide) (by decide)⟩

/-- C5 counterexample: with the positive configuration `cfgCE5`
(initial = ceiling = 10ns, factor 2), attempt 1 is odd, so the jitter scale
is `1.2` and `calculateBackoff` returns 12ns — strictly above the
configured ceiling of 10ns, refuting the claimed upper bound. -/
theorem calculateBackoff_exceeds_ceiling :
    0 < cfgCE5.RetryInitialBackoff ∧ 0 < cfgCE5.RetryBackoffFactor ∧ 0 < cfgCE5.RetryMaxBackoff ∧
    cfgCE5.RetryMaxBackoff < calculateBackoff cfgCE5 1 := by
  have hp : ratTrunc (cfgCE5.RetryBackoffFactor ^ (1 - 1 : ℕ)) = 1 := by
    rw [show cfgCE5.RetryBackoffFactor ^ (1 - 1 : ℕ) = ((1 : ℤ) : ℚ) from by
      norm_num [cfgCE5, cfg0]]
    exact ratTrunc_intCast 1
  have h1 : cappedBackoff cfgCE5 1 = 10 := by
    simp only [cappedBackoff, hp]
    norm_num [cfgCE5, cfg0]
  have h3 : calculateBackoff cfgCE5 1 = 12 := by
    rw [show calculateBackoff cfgCE5 1 =
        ratTrunc ((cappedBackoff cfgCE5 1 : ℚ) * (4 / 5 + 2 / 5 * ((1 % 2 : ℕ) : ℚ))) from rfl,
      h1,
      show (((10 : ℤ) : ℚ) * (4 / 5 + 2 / 5 * ((1 % 2 : ℕ) : ℚ))) = ((12 : ℤ) : ℚ) from by
        norm_num,
      ratTrunc_intCast]
  refine ⟨by decide, by decide, by decide, ?_⟩
  rw [h3]
  decide

/-- C1: the Retry-After path.  With the default configuration and a first
attempt that yields a 429 envelope carrying `Retry-After: 5`, `SendMessage`
does not wait 5 seconds — it panics (with no recorded wait) at the
`errors.As(err, &telegramErr)` call, whose target `*TelegramResponse` does
not implement `error`.  Even under the charitable non-panicking reading
(`SendMessageLenient`), the server hint was already discarded when
`sendMessageOnce` rebuilt the failure as a plain formatted error, so the
single wait is `calculateBackoff cfg0 1 = 120ms`, not 5 seconds. -/
theorem sendMessage_retry_after_hint_dropped :
    (SendMessage cfg0 envC1).outcome = .panicked asPanicMessage ∧
    (SendMessage cfg0 envC1).waits = [] ∧
    (SendMessageLenient cfg0 envC1).waits = [calculateBackoff cfg0 1] ∧
    calculateBackoff cfg0 1 = 120000000 ∧
    calculateBackoff cfg0 1 ≠ 5000000000 := by
  have hp : ratTrunc (cfg0.RetryBackoffFactor ^ (1 - 1 : ℕ)) = 1 := by
    rw [show cfg0.RetryBackoffFactor ^ (1 - 1 : ℕ) = ((1 : ℤ) : ℚ) from by norm_num [cfg0]]
    exact ratTrunc_intCast 1
  have h1 : cappedBackoff cfg0 1 = 100000000 := by
    simp only [cappedBackoff, hp]
    norm_num [cfg0]
  have hval : calculateBackoff cfg0 1 = 120000000 := by
    rw [show calculateBackoff cfg0 1 =
        ratTrunc ((cappedBackoff cfg0 1 : ℚ) * (4 / 5 + 2 / 5 * ((1 % 2 : ℕ) : ℚ))) from rfl,
      h1,
      show (((100000000 : ℤ) : ℚ) * (4 / 5 + 2 / 5 * ((1 % 2 : ℕ) : ℚ))) = ((120000000 : ℤ) : ℚ) from by
        norm_num,
      ratTrunc_intCast]
  exact ⟨by decide, by decide, rfl, hval, by rw [hval]; decide⟩

/-- C9: cancellation during the backoff wait.  The faithful semantics never
reaches the wait: a retryable failure with attempts remaining panics at the
`errors.As` call first, so `SendMessage` panics instead of returning the
cancellation error.  The `select` logic itself, taken in isolation (the
charitable `SendMessageLenient` reading), does behave as claimed: the
cancellation error is returned, after one attempt and with no completed
wait. -/
theorem sendMessage_panics_before_backoff_wait :
    (SendMessage cfg0 envC9).outcome = .panicked asPanicMessage ∧
    (SendMessageLenient cfg0 envC9).outcome = .err GoError.ctxCanceled ∧
    (SendMessageLenient cfg0 envC9).attemptsUsed = 1 ∧
    (SendMessageLenient cfg0 envC9).waits = [] :=
  ⟨by decide, by decide, by decide, by decide⟩

/-- C4: the code leaks the bot token through transport-level errors.  When
`httpClient.Do` fails, the `*url.Error` it returns embeds the full
token-bearing request URL in its message (`stripPassword` redacts only a
userinfo password, not the `/bot<token>/` path segment); `executeRequest`
wraps it verbatim as `"request failed: %w"`; a non-timeout transport
failure is non-retryable, so `SendMessage` both logs it (the
`"non-retryable error"` event carries `err.Error()` in its `error` field)
and returns it to the caller.  Both channels therefore contain the token,
contradicting the claim — while the `redactedURL` of the code (which does
not contain the token, unlike `requestURL`) covers only the `url` field of
the `executeRequest` log event and the line 219 wrapper text. -/
theorem sendMessage_transport_error_leaks_token :
    (SendMessage cfg0 envLeak).outcome =
      .err (.wrapped "request failed"
        (.netErr ("Post \"" ++ requestURL cfg0 "sendMessage" ++ "\": dial tcp: connection refused")
          false)) ∧
    goContains
      (errMessage (.wrapped "request failed"
        (.netErr ("Post \"" ++ requestURL cfg0 "sendMessage" ++ "\": dial tcp: connection refused")
          false)))
      cfg0.BotToken = true ∧
    ((SendMessage cfg0 envLeak).logs.any fun s => goContains s cfg0.BotToken) = true ∧
    goContains (redactedURL cfg0 "sendMessage") cfg0.BotToken = false ∧
    goContains (requestURL cfg0 "sendMessage") cfg0.BotToken = true :=
  ⟨by decide, by decide, by decide, by decide, by decide⟩

/-- C6 (amended): a circuit-open rejection is NOT retried.  `isRetryable`
returns `false` for the gobreaker value `ErrOpenState` (and `ErrTooManyRequests`),
so when the breaker rejects attempt 0 of a validated configuration with
retry budget remaining, `SendMessage` returns the circuit-open error
immediately: one attempt, no waits, only the non-retryable log event. -/
theorem circuitOpen_not_retried (cfg : Config) (env : Env)
    (hv : ValidateConfig cfg = none) (hmr : 0 < cfg.MaxRetries)
    (ha : env.attempts 0 = .breakerReject .errOpenState) :
    SendMessage cfg env =
      { outcome := .err .errOpenState, waits := [],
        logs := nonRetryableLog .errOpenState 0, attemptsUsed := 1 } ∧
    isRetryable GoError.errOpenState = false ∧
    isRetryable GoError.errTooManyRequests = false := by
  refine ⟨?_, by decide, by decide⟩
  unfold SendMessage
  rw [hv]
  obtain ⟨k, hk⟩ : ∃ k, cfg.MaxRetries.toNat = k + 1 := ⟨cfg.MaxRetries.toNat - 1, by omega⟩
  rw [hk]
  rw [sendLoopCore]
  simp only [ha, pipelineOps, sendMessageOnce, attemptLogs, List.nil_append]
  rw [if_pos (show isRetryable GoError.errOpenState = false from by decide)]

/-- C6 witness: the amended statement at the default configuration with an
always-rejecting breaker. -/
theorem circuitOpen_not_retried_witness :
    ValidateConfig cfg0 = none ∧ 0 < cfg0.MaxRetries ∧
    envC6.attempts 0 = .breakerReject .errOpenState ∧
    (SendMessage cfg0 envC6 =
        { outcome := .err .errOpenState, waits := [],
          logs := nonRetryableLog .errOpenState 0, attemptsUsed := 1 } ∧
      isRetryable GoError.errOpenState = false ∧
      isRetryable GoError.errTooManyRequests = false) :=
  ⟨by decide, by decide, rfl, circuitOpen_not_retried cfg0 envC6 (by decide) (by decide) rfl⟩

end Telegramsender
